import Mathlib

/-!
Verification of the pipeline runtime of LironTal01/pipeline_project.

The definitions below are shallow embeddings of the C sources:
  * `Monitor` and its operations embed plugins/sync/monitor.c
  * `CPQueue` and its operations embed plugins/sync/consumer_producer.c
  * `plugin_consumer_step` embeds one iteration of the worker loop in
    plugins/plugin_common.c (`plugin_consumer_thread`)
  * the transformation functions embed the plugin `plugin_transform`s
  * `main_enqueued`, `main_args_v0`, `main_args_v1` embed the two main.c
    driver variants (read loop and argument checking).

Blocking C calls are modelled sequentially: an operation that would park the
calling thread on a condition variable with no further pass through its guard
returns a distinguished `blocked` / `none` outcome.
-/

namespace Pipeline

/-- Manual-reset event state from plugins/sync/monitor.c: the mutex and
condition variable carry no observable state of their own, only the
`signaled` flag does. -/
structure Monitor where
  signaled : Bool
deriving DecidableEq

/-- monitor_init: `monitor->signaled = 0`. -/
def monitor_init : Monitor := { signaled := false }

/-- monitor_signal: sets `signaled = 1` and broadcasts. -/
def monitor_signal (m : Monitor) : Monitor := { m with signaled := true }

/-- monitor_reset: clears `signaled`. -/
def monitor_reset (m : Monitor) : Monitor := { m with signaled := false }

/-- monitor_wait: `while (!signaled) pthread_cond_wait(...)`; returns 0 once
signaled, leaving the flag untouched (manual reset).  In the sequential model
an unsignaled monitor would block forever, encoded as `none`. -/
def monitor_wait (m : Monitor) : Option (Int × Monitor) :=
  if m.signaled then some (0, m) else none

/-- Whether the `while (!monitor->signaled)` loop body of monitor_wait would
be entered at all. -/
def monitor_wait_enters_loop (m : Monitor) : Bool := !m.signaled

/-- Bounded queue state from plugins/sync/consumer_producer.c.  `items` is the
circular slot array (`char**`), a slot holding `none` models a NULL pointer. -/
structure CPQueue where
  items : List (Option String)
  capacity : Nat
  count : Nat
  head : Nat
  tail : Nat
  finished : Bool
  not_full_monitor : Monitor
  not_empty_monitor : Monitor
  finished_monitor : Monitor
deriving DecidableEq

/-- consumer_producer_init: rejects negative capacity, allocates `capacity`
slots (none for capacity 0), zeroes the indices and flags, and initializes the
three monitors unsignaled. -/
def consumer_producer_init (capacity : Int) : Except String CPQueue :=
  if capacity < 0 then Except.error "Invalid arguments"
  else Except.ok {
    items := List.replicate capacity.toNat none
    capacity := capacity.toNat
    count := 0
    head := 0
    tail := 0
    finished := false
    not_full_monitor := monitor_init
    not_empty_monitor := monitor_init
    finished_monitor := monitor_init }

/-- Result of consumer_producer_put: success (with the new queue state), an
error string (queue state unchanged, the strdup-ed copy freed), or blocked on
the condition variable (`count == capacity && !finished`). -/
inductive PutResult where
  | ok (q : CPQueue)
  | error (msg : String) (q : CPQueue)
  | blocked
deriving DecidableEq

/-- consumer_producer_put: zero capacity rejects outright; a full unfinished
queue waits; a finished queue rejects with "Queue finished"; otherwise the
item is stored at `tail`, which advances modulo `capacity`, and `count` is
incremented. -/
def consumer_producer_put (q : CPQueue) (item : String) : PutResult :=
  if q.capacity = 0 then PutResult.error "Queue has zero capacity" q
  else if q.count = q.capacity ∧ q.finished = false then PutResult.blocked
  else if q.finished = true then PutResult.error "Queue finished" q
  else PutResult.ok { q with
    items := q.items.set q.tail (some item)
    tail := (q.tail + 1) % q.capacity
    count := q.count + 1 }

/-- Result of consumer_producer_get: either the returned pointer (`none`
models returning NULL, meaning "no item only if taken from the no-item
branches") together with the new state, or blocked on the condition variable
(`count == 0 && !finished`). -/
inductive GetOutcome where
  | blocked
  | retval (r : Option String) (q : CPQueue)
deriving DecidableEq

/-- consumer_producer_get: zero capacity returns NULL immediately; an empty
unfinished queue waits; an empty finished queue returns NULL; otherwise the
slot at `head` is returned, the slot is cleared, `head` advances modulo
`capacity`, and `count` is decremented. -/
def consumer_producer_get (q : CPQueue) : GetOutcome :=
  if q.capacity = 0 then GetOutcome.retval none q
  else if q.count = 0 ∧ q.finished = false then GetOutcome.blocked
  else if q.count = 0 then GetOutcome.retval none q
  else GetOutcome.retval (q.items.getD q.head none) { q with
    items := q.items.set q.head none
    head := (q.head + 1) % q.capacity
    count := q.count - 1 }

/-- consumer_producer_signal_finished: sets `finished = 1` under the lock,
broadcasts, then signals the external finished event. -/
def consumer_producer_signal_finished (q : CPQueue) : CPQueue :=
  { q with
    finished := true
    finished_monitor := monitor_signal q.finished_monitor }

/-- consumer_producer_wait_finished: `while (!queue->finished) wait;` then
returns 0.  An unfinished queue blocks (`none`). -/
def consumer_producer_wait_finished (q : CPQueue) : Option Int :=
  if q.finished then some 0 else none

/-- The pending items of the queue in dequeue order: the `count` slots
starting at `head`, wrapping modulo `capacity`. -/
def pendingList (q : CPQueue) : List (Option String) :=
  (List.range q.count).map (fun i => q.items.getD ((q.head + i) % q.capacity) none)

/-- Well-formedness of a positive-capacity queue state, as maintained by the C
code: indices in range, `tail` one past the pending block, the slot array of
the allocated length, and every pending slot holding an owned string. -/
def Wf (q : CPQueue) : Prop :=
  0 < q.capacity ∧ q.head < q.capacity ∧ q.count ≤ q.capacity ∧
    q.tail = (q.head + q.count) % q.capacity ∧ q.items.length = q.capacity ∧
    ∀ x ∈ pendingList q, x.isSome = true

instance (q : CPQueue) : Decidable (Wf q) := by
  unfold Wf; infer_instance

/-- Perform a sequence of puts, failing (`none`) if any put does not succeed. -/
def putAll : CPQueue → List String → Option CPQueue
  | q, [] => some q
  | q, s :: rest =>
    match consumer_producer_put q s with
    | PutResult.ok q1 => putAll q1 rest
    | _ => none

/-- Perform `n` successive gets, collecting the returned pointers; stops early
only if a get would block. -/
def getAll : CPQueue → Nat → List (Option String) × CPQueue
  | q, 0 => ([], q)
  | q, n + 1 =>
    match consumer_producer_get q with
    | GetOutcome.blocked => ([], q)
    | GetOutcome.retval r q1 =>
      let p := getAll q1 n
      (r :: p.1, p.2)

/-- Observable effect of one iteration of `plugin_consumer_thread` in
plugins/plugin_common.c on a dequeued item: the lines written to standard
output, the items handed to `next_place_work`, and whether the loop breaks. -/
structure StepEffect where
  printed : List String
  forwarded : List String
  breaks : Bool
deriving DecidableEq

/-- One iteration of the worker loop of `plugin_consumer_thread`, given the
stage name, whether `next_place_work` is attached, the `process_function`
(if non-NULL) and the dequeued item.  On the sentinel the item is forwarded
when a next stage is attached and otherwise PRINTED as `[name] <END>`, and the
loop breaks.  On other items the transformation result is forwarded when
attached, printed as `[name] result` when terminal, and silently dropped when
the transformation returns NULL; the loop continues. -/
def plugin_consumer_step (name : String) (hasNext : Bool)
    (process : Option (String → Option String)) (item : String) : StepEffect :=
  if item = "<END>" then
    if hasNext then { printed := [], forwarded := [item], breaks := true }
    else { printed := ["[" ++ name ++ "] " ++ item], forwarded := [], breaks := true }
  else
    match process with
    | some f =>
      match f item with
      | some result =>
        if hasNext then { printed := [], forwarded := [result], breaks := false }
        else { printed := ["[" ++ name ++ "] " ++ result], forwarded := [], breaks := false }
      | none => { printed := [], forwarded := [], breaks := false }
    | none =>
      if hasNext then { printed := [], forwarded := [item], breaks := false }
      else { printed := ["[" ++ name ++ "] " ++ item], forwarded := [], breaks := false }

/-- Lines printed for one non-dequeued-sentinel input item travelling through
a chain of stages `(name, transform)`, each worker being
`plugin_consumer_step` with `next_place_work` attached exactly when a later
stage exists.  Each intermediate queue has one producer and one consumer, so
the sequential composition is the end-to-end behaviour. -/
def runItem : List (String × (String → Option String)) → String → List String
  | [], _ => []
  | (name, f) :: rest, s =>
    let e := plugin_consumer_step name (!rest.isEmpty) (some f) s
    e.printed ++ (match e.forwarded with
      | [t] => runItem rest t
      | _ => [])

/-- `plugin_transform` of plugins/rotator.c on the character array: the last
character moves to the front, every other character shifts right by one. -/
def rotateRight (l : List Char) : List Char :=
  match l.getLast? with
  | none => []
  | some c => c :: l.dropLast

/-- `plugin_transform` of plugins/rotator.c: NULL for the sentinel, otherwise
the right rotation by one. -/
def rotator_plugin_transform (input : String) : Option String :=
  if input = "<END>" then none
  else some (String.mk (rotateRight input.data))

/-- `plugin_transform` of the logger plugin: `strdup(input)`, the identity on
string values. -/
def logger_plugin_transform (input : String) : Option String :=
  some input

/-- Case flip of one byte as in the flipper `plugin_transform`
(islower → toupper, isupper → tolower in the ASCII locale). -/
def flipCase (c : Char) : Char :=
  if 97 ≤ c.toNat ∧ c.toNat ≤ 122 then Char.ofNat (c.toNat - 32)
  else if 65 ≤ c.toNat ∧ c.toNat ≤ 90 then Char.ofNat (c.toNat + 32)
  else c

/-- `plugin_transform` of the flipper plugin as implemented in the repository
(the file concatenated after consumer_producer.c): it flips the CASE of every
character and never reorders them. -/
def flipper_plugin_transform (input : String) : Option String :=
  some (String.mk (input.data.map flipCase))

/-- The reference transform the repository itself expects of the flipper:
`apply_one` for "flipper" in the integration test (`out[i] = in[n-1-i]`),
matching the usage text "flipper - Reverses the order of characters". -/
def apply_one_flipper (input : String) : String :=
  String.mk input.data.reverse

/-- The read loop of both main.c variants: each stdin line is handed to
`process_input` (stage 0's `plugin_place_work`); on a line equal to `<END>`
it is forwarded and reading stops.  After the loop NOTHING further is
enqueued; the driver proceeds directly to `wait_for_completion`. -/
def main_enqueued : List String → List String
  | [] => []
  | line :: rest =>
    if line = "<END>" then [line]
    else line :: main_enqueued rest

/-- `atoi` on the digit run: accumulate base-10 digits, stop at the first
non-digit. -/
def atoiDigits : List Char → Nat → Nat
  | [], acc => acc
  | c :: cs, acc =>
    if 48 ≤ c.toNat ∧ c.toNat ≤ 57 then atoiDigits cs (acc * 10 + (c.toNat - 48))
    else acc

/-- C `isspace` for the characters relevant to atoi. -/
def isSpaceChar (c : Char) : Bool :=
  c = ' ' ∨ c = '\t' ∨ c = '\n' ∨ c = '\x0b' ∨ c = '\x0c' ∨ c = '\r'

/-- C `atoi`: optional leading whitespace, optional sign, then a digit run;
returns 0 when no digits are present. -/
def atoi (s : String) : Int :=
  let l := s.data.dropWhile isSpaceChar
  match l with
  | '-' :: rest => -(atoiDigits rest 0 : Int)
  | '+' :: rest => (atoiDigits rest 0 : Int)
  | _ => (atoiDigits l 0 : Int)

/-- Outcome of the argument-checking prefix of main: the exit code, whether
the usage text was printed on standard output, and the messages printed on
standard error. -/
structure ArgResult where
  exitCode : Int
  stdoutUsage : Bool
  stderrMsgs : List String
deriving DecidableEq

/-- Argument checking of the first main.c variant (src/unnamed/part_000):
fewer than 3 argv entries → usage on stdout, exit 1; `atoi(argv[1]) <= 0` →
"Error: Queue size must be positive" on stderr, usage on stdout, exit 1;
otherwise (`none`) main proceeds to load plugins. -/
def main_args_v0 (argv : List String) : Option ArgResult :=
  if argv.length < 3 then
    some { exitCode := 1, stdoutUsage := true, stderrMsgs := [] }
  else if atoi (argv.getD 1 "") ≤ 0 then
    some { exitCode := 1, stdoutUsage := true,
           stderrMsgs := ["Error: Queue size must be positive"] }
  else none

/-- Argument checking of the second main.c variant (src/unnamed/part_001):
identical except that on a non-positive queue size NO usage text is printed,
only the stderr message. -/
def main_args_v1 (argv : List String) : Option ArgResult :=
  if argv.length < 3 then
    some { exitCode := 1, stdoutUsage := true, stderrMsgs := [] }
  else if atoi (argv.getD 1 "") ≤ 0 then
    some { exitCode := 1, stdoutUsage := false,
           stderrMsgs := ["Error: Queue size must be positive"] }
  else none

/-- State of stage 0's queue in the C2 scenario: a fresh queue of capacity 10
into which the driver put the single line "hello" and whose worker then
dequeued it. -/
def c2_driver_state : Option CPQueue :=
  match consumer_producer_init 10 with
  | Except.error _ => none
  | Except.ok q0 =>
    match consumer_producer_put q0 "hello" with
    | PutResult.ok q1 =>
      match consumer_producer_get q1 with
      | GetOutcome.retval _ q2 => some q2
      | GetOutcome.blocked => none
    | _ => none

/-- Two offsets i < j with j - i < capacity address different slots of the
circular buffer. -/
theorem slot_index_ne (cap a i j : Nat) (hij : i < j) (hj : j - i < cap) :
    (a + i) % cap ≠ (a + j) % cap := by
  intro h
  have h1 : a + i ≡ a + j [MOD cap] := h
  have h2 : i ≡ j [MOD cap] := Nat.ModEq.add_left_cancel' a h1
  have h3 : cap ∣ j - i := (Nat.modEq_iff_dvd' (Nat.le_of_lt hij)).mp h2
  have h4 : cap ≤ j - i := Nat.le_of_dvd (by omega) h3
  omega

/-- Writing one slot leaves every other slot unchanged. -/
theorem getD_set_ne (l : List (Option String)) (i j : Nat) (v : Option String)
    (h : i ≠ j) : (l.set i v).getD j none = l.getD j none := by
  rw [List.getD_eq_getElem?_getD, List.getD_eq_getElem?_getD, List.getElem?_set_ne h]

/-- Reading back the slot just written yields the written value. -/
theorem getD_set_self (l : List (Option String)) (i : Nat) (v : Option String)
    (h : i < l.length) : (l.set i v).getD i none = v := by
  rw [List.getD_eq_getElem?_getD, List.getElem?_set_self h]
  rfl

/-- A successful put on a well-formed, unfinished, non-full queue appends the
item to the pending block. -/
theorem put_ok (q : CPQueue) (item : String) (hwf : Wf q)
    (hcnt : q.count < q.capacity) (hfin : q.finished = false) :
    ∃ q1, consumer_producer_put q item = PutResult.ok q1 ∧ Wf q1 ∧
      pendingList q1 = pendingList q ++ [some item] ∧
      q1.head = q.head ∧ q1.count = q.count + 1 ∧
      q1.capacity = q.capacity ∧ q1.finished = q.finished := by
  obtain ⟨hcap, hhead, hle, htail, hlen, hsome⟩ := hwf
  have h0 : ¬ q.capacity = 0 := by omega
  have h1 : ¬ (q.count = q.capacity ∧ q.finished = false) := by
    rintro ⟨h, _⟩; omega
  have h2 : ¬ q.finished = true := by simp [hfin]
  have htail_lt : q.tail < q.items.length := by
    rw [hlen, htail]; exact Nat.mod_lt _ hcap
  have hpend : pendingList { q with
      items := q.items.set q.tail (some item)
      tail := (q.tail + 1) % q.capacity
      count := q.count + 1 } = pendingList q ++ [some item] := by
    show (List.range (q.count + 1)).map
        (fun i => (q.items.set q.tail (some item)).getD ((q.head + i) % q.capacity) none) =
      pendingList q ++ [some item]
    rw [List.range_succ q.count, List.map_append, List.map_cons, List.map_nil]
    congr 1
    · simp only [pendingList]
      apply List.map_congr_left
      intro i hi
      rw [List.mem_range] at hi
      apply getD_set_ne
      rw [htail]
      exact (slot_index_ne q.capacity q.head i q.count hi (by omega)).symm
    · show [(q.items.set q.tail (some item)).getD ((q.head + q.count) % q.capacity) none] =
        [some item]
      rw [← htail, getD_set_self q.items q.tail (some item) htail_lt]
  refine ⟨_, ?_, ?_, hpend, rfl, rfl, rfl, rfl⟩
  · simp only [consumer_producer_put, if_neg h0, if_neg h1, if_neg h2]
  · refine ⟨hcap, hhead, (show q.count + 1 ≤ q.capacity by omega), ?_, ?_, ?_⟩
    · show (q.tail + 1) % q.capacity = (q.head + (q.count + 1)) % q.capacity
      rw [htail, Nat.mod_add_mod, ← Nat.add_assoc]
    · show (q.items.set q.tail (some item)).length = q.capacity
      rw [List.length_set, hlen]
    · intro y hy
      rw [hpend] at hy
      rcases List.mem_append.mp hy with hy | hy
      · exact hsome y hy
      · rw [List.mem_singleton.mp hy]; rfl

/-- A get on a well-formed queue with pending items returns exactly the head
of the pending block and leaves its tail pending. -/
theorem get_step (q : CPQueue) (hwf : Wf q) (hcnt : 0 < q.count) :
    ∃ x q1, consumer_producer_get q = GetOutcome.retval (some x) q1 ∧ Wf q1 ∧
      pendingList q = some x :: pendingList q1 ∧
      q1.count = q.count - 1 ∧ q1.capacity = q.capacity ∧ q1.finished = q.finished := by
  obtain ⟨hcap, hhead, hle, htail, hlen, hsome⟩ := hwf
  have h0 : ¬ q.capacity = 0 := by omega
  have h1 : ¬ (q.count = 0 ∧ q.finished = false) := by rintro ⟨h, _⟩; omega
  have h2 : ¬ q.count = 0 := by omega
  have hh : (q.head + 0) % q.capacity = q.head := by
    rw [Nat.add_zero, Nat.mod_eq_of_lt hhead]
  have hmem : q.items.getD q.head none ∈ pendingList q := by
    simp only [pendingList]
    refine List.mem_map.mpr ⟨0, List.mem_range.mpr hcnt, ?_⟩
    rw [hh]
  obtain ⟨x, hx⟩ := Option.isSome_iff_exists.mp (hsome _ hmem)
  have hpend : pendingList q = some x :: pendingList { q with
      items := q.items.set q.head none
      head := (q.head + 1) % q.capacity
      count := q.count - 1 } := by
    show pendingList q = some x :: (List.range (q.count - 1)).map
      (fun i => (q.items.set q.head none).getD
        (((q.head + 1) % q.capacity + i) % q.capacity) none)
    have hc : q.count = (q.count - 1) + 1 := by omega
    simp only [pendingList]
    conv_lhs => rw [hc]
    rw [List.range_succ_eq_map, List.map_cons, List.map_map]
    congr 1
    · rw [hh, hx]
    · apply List.map_congr_left
      intro i hi
      rw [List.mem_range] at hi
      have hne : q.head ≠ (q.head + (i + 1)) % q.capacity := by
        have h5 := slot_index_ne q.capacity q.head 0 (i + 1) (by omega) (by omega)
        rw [hh] at h5
        exact h5
      show q.items.getD ((q.head + Nat.succ i) % q.capacity) none =
        (q.items.set q.head none).getD (((q.head + 1) % q.capacity + i) % q.capacity) none
      rw [Nat.mod_add_mod, show q.head + 1 + i = q.head + (i + 1) from by omega,
        getD_set_ne q.items q.head _ none hne]
  refine ⟨x, _, ?_, ?_, hpend, rfl, rfl, rfl⟩
  · simp only [consumer_producer_get, if_neg h0, if_neg h1, if_neg h2]
    rw [hx]
  · refine ⟨hcap, Nat.mod_lt _ hcap, (show q.count - 1 ≤ q.capacity by omega), ?_, ?_, ?_⟩
    · show q.tail = ((q.head + 1) % q.capacity + (q.count - 1)) % q.capacity
      rw [Nat.mod_add_mod, htail]
      congr 1
      omega
    · show (q.items.set q.head none).length = q.capacity
      rw [List.length_set, hlen]
    · intro y hy
      exact hsome y (hpend ▸ List.mem_cons_of_mem _ hy)

/-- Draining a well-formed queue with `count = n` by `n` gets returns exactly
the pending block, in order, leaving an empty queue. -/
theorem drain_pending (n : Nat) :
    ∀ q, Wf q → q.count = n →
      ∃ q1, getAll q n = (pendingList q, q1) ∧ Wf q1 ∧ q1.count = 0 ∧
        q1.capacity = q.capacity ∧ q1.finished = q.finished := by
  induction n with
  | zero =>
    intro q hwf h0
    refine ⟨q, ?_, hwf, h0, rfl, rfl⟩
    simp [getAll, pendingList, h0]
  | succ n ih =>
    intro q hwf hc
    obtain ⟨x, q1, hget, hwf1, hpend, hcnt1, hcap1, hfin1⟩ :=
      get_step q hwf (by omega)
    obtain ⟨q2, hall, hwf2, hcnt2, hcap2, hfin2⟩ := ih q1 hwf1 (by omega)
    refine ⟨q2, ?_, hwf2, hcnt2, by rw [hcap2, hcap1], by rw [hfin2, hfin1]⟩
    simp only [getAll, hget, hall, hpend]

/-- Putting a list of items one by one into a well-formed, unfinished queue
with enough free slots succeeds and appends them to the pending block. -/
theorem putAll_ok :
    ∀ (l : List String) (q : CPQueue), Wf q → q.finished = false →
      q.count + l.length ≤ q.capacity →
      ∃ q1, putAll q l = some q1 ∧ Wf q1 ∧ q1.finished = false ∧
        q1.count = q.count + l.length ∧ q1.capacity = q.capacity ∧
        pendingList q1 = pendingList q ++ l.map some := by
  intro l
  induction l with
  | nil =>
    intro q hwf hfin _
    exact ⟨q, rfl, hwf, hfin, by simp, rfl, by simp⟩
  | cons s rest ih =>
    intro q hwf hfin hle
    have hlen : (s :: rest).length = rest.length + 1 := by simp
    obtain ⟨q1, hput, hwf1, hpend1, hhead1, hcnt1, hcap1, hfin1⟩ :=
      put_ok q s hwf (by rw [hlen] at hle; omega) hfin
    obtain ⟨q2, hall, hwf2, hfin2, hcnt2, hcap2, hpend2⟩ :=
      ih q1 hwf1 (by rw [hfin1, hfin]) (by rw [hcnt1, hcap1]; rw [hlen] at hle; omega)
    refine ⟨q2, ?_, hwf2, hfin2, ?_, by rw [hcap2, hcap1], ?_⟩
    · simp only [putAll, hput, hall]
    · rw [hcnt2, hcnt1, hlen]; omega
    · rw [hpend2, hpend1, List.map_cons, List.append_assoc, List.singleton_append]

/-- Claim C3: once `signal_finished` has set `finished = true`, every
subsequent put returns the error "Queue finished" leaving the queue unchanged
(the duplicate is released, nothing is stored), while successive gets still
return every item that was pending at that moment, exactly once and in FIFO
order, and the next get after the drain returns NULL ("no item"). -/
theorem c3_put_rejected_get_drains (q : CPQueue) (hwf : Wf q) :
    (∀ item, consumer_producer_put (consumer_producer_signal_finished q) item =
      PutResult.error "Queue finished" (consumer_producer_signal_finished q)) ∧
    (∃ q2, getAll (consumer_producer_signal_finished q)
        (consumer_producer_signal_finished q).count = (pendingList q, q2) ∧
      consumer_producer_get q2 = GetOutcome.retval none q2) := by
  obtain ⟨hcap, hhead, hle, htail, hlen, hsome⟩ := hwf
  have hwff : Wf (consumer_producer_signal_finished q) :=
    ⟨hcap, hhead, hle, htail, hlen, hsome⟩
  constructor
  · intro item
    have h0 : ¬ (consumer_producer_signal_finished q).capacity = 0 := by
      show ¬ q.capacity = 0; omega
    have h1 : ¬ ((consumer_producer_signal_finished q).count =
        (consumer_producer_signal_finished q).capacity ∧
        (consumer_producer_signal_finished q).finished = false) := by
      rintro ⟨_, h⟩
      simp [consumer_producer_signal_finished] at h
    simp only [consumer_producer_put, if_neg h0, if_neg h1]
    simp [consumer_producer_signal_finished]
  · obtain ⟨q2, hall, hwf2, hcnt2, hcap2, hfin2⟩ :=
      drain_pending (consumer_producer_signal_finished q).count
        (consumer_producer_signal_finished q) hwff rfl
    refine ⟨q2, hall, ?_⟩
    have h0 : ¬ q2.capacity = 0 := by rw [hcap2]; show ¬ q.capacity = 0; omega
    have h1 : ¬ (q2.count = 0 ∧ q2.finished = false) := by
      rintro ⟨_, h⟩
      rw [hfin2] at h
      simp [consumer_producer_signal_finished] at h
    simp only [consumer_producer_get, if_neg h0, if_neg h1, if_pos hcnt2]

/-- A concrete well-formed queue of capacity 3 holding the pending items
"a", "b" (in that order), used as the C3 witness state. -/
def c3_example_queue : CPQueue :=
  { items := [some "a", some "b", none]
    capacity := 3
    count := 2
    head := 0
    tail := 2
    finished := false
    not_full_monitor := monitor_init
    not_empty_monitor := monitor_init
    finished_monitor := monitor_init }

/-- Witness for C3 at the concrete two-item queue of capacity 3. -/
theorem c3_example_witness :
    Wf c3_example_queue ∧
    ((∀ item, consumer_producer_put (consumer_producer_signal_finished c3_example_queue)
        item = PutResult.error "Queue finished"
        (consumer_producer_signal_finished c3_example_queue)) ∧
     (∃ q2, getAll (consumer_producer_signal_finished c3_example_queue)
         (consumer_producer_signal_finished c3_example_queue).count =
         (pendingList c3_example_queue, q2) ∧
       consumer_producer_get q2 = GetOutcome.retval none q2)) :=
  ⟨by decide, c3_put_rejected_get_drains c3_example_queue (by decide)⟩

/-- Claim C4: for every capacity C ≥ 1 and every list of k ≤ C items, putting
them in order into a freshly initialized queue succeeds without any put
blocking, and k successive gets return copies of exactly those items in the
same order (strict FIFO through the circular buffer). -/
theorem c4_fifo_order (C : Nat) (items : List String) (hC : 1 ≤ C)
    (hlen : items.length ≤ C) :
    ∃ q0 q1, consumer_producer_init (C : Int) = Except.ok q0 ∧
      putAll q0 items = some q1 ∧
      (getAll q1 items.length).1 = items.map some := by
  have hinit : consumer_producer_init (C : Int) = Except.ok
      { items := List.replicate C none
        capacity := C
        count := 0
        head := 0
        tail := 0
        finished := false
        not_full_monitor := monitor_init
        not_empty_monitor := monitor_init
        finished_monitor := monitor_init } := by
    unfold consumer_producer_init
    rw [if_neg (by exact not_lt.mpr (Int.natCast_nonneg C))]
    rw [Int.toNat_natCast]
  set q0 : CPQueue :=
    { items := List.replicate C none
      capacity := C
      count := 0
      head := 0
      tail := 0
      finished := false
      not_full_monitor := monitor_init
      not_empty_monitor := monitor_init
      finished_monitor := monitor_init } with hq0
  have hpend0 : pendingList q0 = [] := by simp [pendingList, hq0]
  have hwf0 : Wf q0 := by
    refine ⟨hC, hC, by simp [hq0], by simp [hq0], by simp [hq0], ?_⟩
    rw [hpend0]
    intro x hx
    simp at hx
  obtain ⟨q1, hputs, hwf1, hfin1, hcnt1, hcap1, hpend1⟩ :=
    putAll_ok items q0 hwf0 rfl (by simp [hq0]; omega)
  obtain ⟨q2, hall, _, _, _, _⟩ :=
    drain_pending items.length q1 hwf1 (by rw [hcnt1]; simp [hq0])
  refine ⟨q0, q1, hinit, hputs, ?_⟩
  rw [hall, hpend1, hpend0, List.nil_append]

/-- Witness for C4 at capacity 3 and the item list [a, b]. -/
theorem c4_fifo_witness :
    1 ≤ 3 ∧ (["a", "b"] : List String).length ≤ 3 ∧
    (∃ q0 q1, consumer_producer_init ((3 : Nat) : Int) = Except.ok q0 ∧
      putAll q0 ["a", "b"] = some q1 ∧
      (getAll q1 (["a", "b"] : List String).length).1 = (["a", "b"] : List String).map some) :=
  ⟨by decide, by decide, c4_fifo_order 3 ["a", "b"] (by decide) (by decide)⟩

/-- Claim C5: after `monitor_signal` and before any `monitor_reset`, every
`monitor_wait` returns 0 immediately (its wait loop is not entered) and leaves
the signaled state set; the signal is sticky even when it precedes the first
wait, and only `monitor_reset` clears it. -/
theorem c5_monitor_signal_sticky (m : Monitor) :
    monitor_wait (monitor_signal m) = some (0, monitor_signal m) ∧
    (monitor_signal m).signaled = true ∧
    monitor_wait_enters_loop (monitor_signal m) = false ∧
    (monitor_reset (monitor_signal m)).signaled = false :=
  ⟨rfl, rfl, rfl, rfl⟩

/-- Witness for C5 at the freshly initialized monitor. -/
theorem c5_monitor_witness :
    monitor_wait (monitor_signal monitor_init) = some (0, monitor_signal monitor_init) ∧
    (monitor_signal monitor_init).signaled = true ∧
    monitor_wait_enters_loop (monitor_signal monitor_init) = false ∧
    (monitor_reset (monitor_signal monitor_init)).signaled = false :=
  c5_monitor_signal_sticky monitor_init

/-- Claim C6: on a queue initialized with capacity 0, every put fails with the
zero-capacity error without blocking and stores nothing, every get returns
NULL immediately without blocking, and `signal_finished` / `wait_finished`
still succeed; put and get behave the same after the finish signal. -/
theorem c6_zero_capacity :
    ∃ q0, consumer_producer_init 0 = Except.ok q0 ∧
      (∀ item, consumer_producer_put q0 item =
        PutResult.error "Queue has zero capacity" q0) ∧
      consumer_producer_get q0 = GetOutcome.retval none q0 ∧
      (consumer_producer_signal_finished q0).finished = true ∧
      consumer_producer_wait_finished (consumer_producer_signal_finished q0) = some 0 ∧
      (∀ item, consumer_producer_put (consumer_producer_signal_finished q0) item =
        PutResult.error "Queue has zero capacity" (consumer_producer_signal_finished q0)) ∧
      consumer_producer_get (consumer_producer_signal_finished q0) =
        GetOutcome.retval none (consumer_producer_signal_finished q0) :=
  ⟨_, rfl, fun _ => rfl, rfl, rfl, rfl, fun _ => rfl, rfl⟩

/-- Claim C1 is violated by the code: when the terminal stage (no forward
handle) consumes the sentinel, `plugin_consumer_thread` executes the
`printf("[%s] %s\n", name, item)` branch, so a line whose whole payload is
the sentinel token IS written to standard output. -/
theorem c1_terminal_prints_sentinel :
    plugin_consumer_step "logger" false (some logger_plugin_transform) "<END>" =
      { printed := ["[logger] <END>"], forwarded := [], breaks := true } ∧
    (plugin_consumer_step "logger" false (some logger_plugin_transform) "<END>").printed ≠ [] :=
  ⟨by decide, by decide⟩

/-- Claim C10: when the transformation returns NULL for a non-sentinel item,
the worker forwards nothing, prints nothing, and continues the loop. -/
theorem c10_drop_item (name : String) (hasNext : Bool) (f : String → Option String)
    (item : String) (hitem : item ≠ "<END>") (hf : f item = none) :
    plugin_consumer_step name hasNext (some f) item =
      { printed := [], forwarded := [], breaks := false } := by
  simp [plugin_consumer_step, hitem, hf]

/-- Witness for C10: a transform that drops everything, on item "abc". -/
theorem c10_drop_witness :
    "abc" ≠ "<END>" ∧
    plugin_consumer_step "rotator" false (some fun _ => none) "abc" =
      { printed := [], forwarded := [], breaks := false } :=
  ⟨by decide, c10_drop_item "rotator" false (fun _ => none) "abc" (by decide) rfl⟩

/-- Claim C2 is violated by the code: when stdin is exhausted without a
sentinel line, the read loop of both main.c variants hands exactly the input
lines to stage 0 and the sentinel is never enqueued afterwards, so stage 0's
queue is never finished and the driver's `wait_finished` blocks forever. -/
theorem c2_no_sentinel_after_loop :
    main_enqueued ["hello"] = ["hello"] ∧
    "<END>" ∉ main_enqueued ["hello"] ∧
    Option.map consumer_producer_wait_finished c2_driver_state = some none :=
  ⟨by decide, by decide, by decide⟩

/-- Claim C7 is violated by the code: the flipper `plugin_transform` flips
the case of each character in place instead of reversing the string, while
the repository's own reference transform (`apply_one` in the integration
test) and usage text specify reversal. -/
theorem c7_flipper_is_case_flip_not_reverse :
    flipper_plugin_transform "hello" = some "HELLO" ∧
    apply_one_flipper "hello" = "olleh" ∧
    flipper_plugin_transform "hello" ≠ some (apply_one_flipper "hello") :=
  ⟨by decide, by decide, by decide⟩

/-- Counterexample for claim C8: at argv = [analyzer, 0, logger] both driver
variants print "Error: Queue size must be positive" on standard error (and
variant part_001 prints no usage at all), refuting "nothing is written to
standard error". -/
theorem c8_counterexample_stderr_on_zero :
    main_args_v0 ["analyzer", "0", "logger"] =
      some { exitCode := 1, stdoutUsage := true,
             stderrMsgs := ["Error: Queue size must be positive"] } ∧
    main_args_v1 ["analyzer", "0", "logger"] =
      some { exitCode := 1, stdoutUsage := false,
             stderrMsgs := ["Error: Queue size must be positive"] } ∧
    (["Error: Queue size must be positive"] : List String) ≠ [] :=
  ⟨by decide, by decide, by decide⟩

/-- Claim C8 as amended: with fewer than two arguments after the program name
the process exits with code 1 and a usage message on standard output and
nothing on standard error; with a zero, negative or non-numeric queue size it
exits with code 1 and prints "Error: Queue size must be positive" on standard
error, variant part_000 additionally printing the usage on standard output
and variant part_001 printing no usage. -/
theorem c8_amended_arg_errors :
    (∀ argv : List String, argv.length < 3 →
      main_args_v0 argv = some { exitCode := 1, stdoutUsage := true, stderrMsgs := [] } ∧
      main_args_v1 argv = some { exitCode := 1, stdoutUsage := true, stderrMsgs := [] }) ∧
    (∀ argv : List String, ¬ argv.length < 3 → atoi (argv.getD 1 "") ≤ 0 →
      main_args_v0 argv = some ⟨1, true, ["Error: Queue size must be positive"]⟩ ∧
      main_args_v1 argv = some ⟨1, false, ["Error: Queue size must be positive"]⟩) := by
  constructor
  · intro argv h
    constructor <;> simp [main_args_v0, main_args_v1, h]
  · intro argv h hq
    rw [List.getD_eq_getElem?_getD] at hq
    constructor <;> simp [main_args_v0, main_args_v1, h, hq]

/-- Witness for C8 as amended: missing arguments, and a negative queue size. -/
theorem c8_amended_witness :
    (["analyzer"].length < 3 ∧
      main_args_v0 ["analyzer"] =
        some { exitCode := 1, stdoutUsage := true, stderrMsgs := [] }) ∧
    (¬ ["analyzer", "-5", "logger"].length < 3 ∧
      atoi (["analyzer", "-5", "logger"].getD 1 "") ≤ 0 ∧
      main_args_v1 ["analyzer", "-5", "logger"] =
        some { exitCode := 1, stdoutUsage := false,
               stderrMsgs := ["Error: Queue size must be positive"] }) :=
  ⟨⟨by decide, (c8_amended_arg_errors.1 ["analyzer"] (by decide)).1⟩,
   ⟨by decide, by decide,
    (c8_amended_arg_errors.2 ["analyzer", "-5", "logger"] (by decide) (by decide)).2⟩⟩

/-- Claim C9: the rotator moves every character one position to the right,
the last character wrapping to the front; composed with itself four times it
is the identity on every 4-character string, and the pipeline
rotator rotator rotator rotator logger prints "[logger] abcd" for the input
line "abcd" (the spec's scenario table writes the stage names as rot / log). -/
theorem c9_rotator_four_cycle :
    (∀ l : List Char, l.length = 4 →
      rotateRight (rotateRight (rotateRight (rotateRight l))) = l) ∧
    runItem [("rotator", rotator_plugin_transform), ("rotator", rotator_plugin_transform),
      ("rotator", rotator_plugin_transform), ("rotator", rotator_plugin_transform),
      ("logger", logger_plugin_transform)] "abcd" = ["[logger] abcd"] := by
  constructor
  · intro l hl
    rcases l with _ | ⟨a, _ | ⟨b, _ | ⟨c, _ | ⟨d, _ | ⟨e, t⟩⟩⟩⟩⟩
    · simp at hl
    · simp at hl
    · simp at hl
    · simp at hl
    · rfl
    · simp at hl
  · decide

/-- Witness for C9 at the 4-character string "abcd". -/
theorem c9_rotator_witness :
    "abcd".data.length = 4 ∧
    rotateRight (rotateRight (rotateRight (rotateRight "abcd".data))) = "abcd".data :=
  ⟨by decide, c9_rotator_four_cycle.1 "abcd".data (by decide)⟩

end Pipeline
